import Mathlib

/-!
Verification of the Solana token vesting program (programs/vesting/src/lib.rs)
against its natural-language specification.

The program state and the four instruction handlers (initialize, claim,
withdraw, change_admin) are shallowly embedded as pure Lean functions.
Machine integers are modelled as Nat (u8, u64, u128) and Int (i64) with
explicit wrap or checked behaviour where the source uses wrapping or
checked arithmetic.  Fallible paths return Except VestingError.  The Solana
runtime reverts every account mutation when an instruction returns an
error, so the observable effect of an operation is its Except result: the
ok payload carries the committed state, and an error leaves the pre-state
in place (applyOp below).
-/

namespace Vesting

/-- Average seconds in a month (30.44 days), constant SECONDS_PER_MONTH. -/
def SECONDS_PER_MONTH : Int := 2629776

/-- Grace period after vesting completion, constant GRACE_PERIOD = 6 months. -/
def GRACE_PERIOD : Int := 6 * SECONDS_PER_MONTH

/-- Maximum allowed delay for the vesting start time, one year in seconds. -/
def MAX_START_DELAY : Int := 365 * 24 * 60 * 60

/-- Maximum number of beneficiaries per vesting schedule. -/
def MAX_BENEFICIARIES : Nat := 50

/-- Maximum token decimals supported. -/
def MAX_DECIMALS : Nat := 9

/-- Modulus of u64 arithmetic, written as a literal so that omega can use it. -/
def U64_MOD : Nat := 18446744073709551616

/-- Modulus of u32 arithmetic. -/
def U32_MOD : Nat := 4294967296

/-- Modulus of u128 arithmetic. -/
def U128_MOD : Nat := 340282366920938463463374607431768211456

/-- Largest i64 value, the saturation bound of i64 saturating_sub. -/
def I64_MAX : Nat := 9223372036854775807

/-- One beneficiary entry of the vesting schedule (struct Beneficiary).
Field types in the source: key Pubkey, allocated_tokens u64,
claimed_tokens u64, start_time i64, cliff_months u8, total_months u8.
Pubkeys are modelled as Nat, with 0 as Pubkey::default(). -/
structure Beneficiary where
  key : Nat
  allocated_tokens : Nat
  claimed_tokens : Nat
  start_time : Int
  cliff_months : Nat
  total_months : Nat
deriving DecidableEq, Repr

/-- The persistent program state (struct DataAccount). -/
structure DataAccount where
  token_amount : Nat
  authority : Nat
  escrow_wallet : Nat
  token_mint : Nat
  beneficiaries : List Beneficiary
  decimals : Nat
deriving DecidableEq, Repr

/-- Error codes of the program (enum VestingError). -/
inductive VestingError where
  | InvalidSender
  | ClaimNotAllowed
  | BeneficiaryNotFound
  | CliffNotReached
  | TooManyBeneficiaries
  | InvalidVestingConfig
  | InvalidVestingPeriod
  | CliffTooLong
  | MathOverflow
  | NoBeneficiaries
  | InvalidAmount
  | InvalidCliffPeriod
  | InvalidAllocation
  | InvalidStartTime
  | InsufficientBalance
  | InvalidDecimals
  | OverAllocation
  | DuplicateBeneficiary
  | UnauthorizedAdmin
  | NoUnclaimedTokens
  | StartTimeTooFar
  | InvalidEscrowWallet
  | InvalidEscrowBump
  | SameAdmin
  | InvalidAddress
deriving DecidableEq, Repr

/-- Wrapping u64 subtraction, the release-mode behaviour of a - b on u64.
Correct for a, b < U64_MOD. -/
def u64Sub (a b : Nat) : Nat := (U64_MOD + a - b) % U64_MOD

/-- u64 checked_add: some (a + b) unless the sum overflows u64. -/
def checkedAddU64 (a b : Nat) : Option Nat :=
  if a + b < U64_MOD then some (a + b) else none

/-- u32 checked_add, used for the processed-beneficiaries counter. -/
def checkedAddU32 (a b : Nat) : Option Nat :=
  if a + b < U32_MOD then some (a + b) else none

/-- u128 checked_mul: some (a * b) unless the product overflows u128. -/
def checkedMulU128 (a b : Nat) : Option Nat :=
  if a * b < U128_MOD then some (a * b) else none

/-- u128 checked_div: none exactly on a zero divisor. -/
def checkedDivU128 (a b : Nat) : Option Nat :=
  if b = 0 then none else some (a / b)

/-- Months elapsed since start_time (claim, lines 203 to 209 of the source):
if now is at or after start_time, the i64 saturating difference is divided
by SECONDS_PER_MONTH (checked_div always succeeds: the divisor is a nonzero
constant and the dividend is nonnegative) and cast to u64; otherwise 0.
The min with I64_MAX is the saturation of i64 saturating_sub. -/
def monthsElapsed (start_time now : Int) : Nat :=
  if start_time ≤ now then min (now - start_time).toNat I64_MAX / 2629776 else 0

/-- vesting_month of the claim handler: total_months - cliff_months after
both u8 values are cast to u64; release-mode u64 subtraction wraps. -/
def vestingSpan (b : Beneficiary) : Nat :=
  u64Sub b.total_months b.cliff_months

/-- months_vested of the claim handler: min of (months_elapsed -
cliff_months) and the vesting span.  Evaluated only after the cliff check,
where months_elapsed is at least cliff_months, so Nat subtraction agrees
with the u64 subtraction of the source. -/
def monthsVested (b : Beneficiary) (now : Int) : Nat :=
  min (monthsElapsed b.start_time now - b.cliff_months) (vestingSpan b)

/-- unlocked of the claim handler (lines 222 to 230): the full allocation
once months_vested reaches the span, otherwise
allocated * months_vested / span in checked u128 arithmetic. -/
def unlockedOpt (b : Beneficiary) (now : Int) : Option Nat :=
  if vestingSpan b ≤ monthsVested b now then some b.allocated_tokens
  else
    match checkedMulU128 b.allocated_tokens (monthsVested b now) with
    | none => none
    | some p => checkedDivU128 p (vestingSpan b)

/-- The claim calculation for one beneficiary at one instant (claim handler
lines 196 to 234): the vesting-span guard, the cliff check, the unlocked
amount and the saturating subtraction of claimed_tokens, ending at the
claimable > 0 requirement.  Returns the claimable amount (u128). -/
def claimCalc (b : Beneficiary) (now : Int) : Except VestingError Nat :=
  if vestingSpan b = 0 then .error .InvalidVestingConfig
  else if monthsElapsed b.start_time now < b.cliff_months then .error .CliffNotReached
  else
    match unlockedOpt b now with
    | none => .error .MathOverflow
    | some u =>
      if 0 < u - b.claimed_tokens then .ok (u - b.claimed_tokens)
      else .error .ClaimNotAllowed

/-- The per-beneficiary tail of the claim handler (lines 251 to 257): the
u64 try_from of claimable, the escrow balance requirement, and the checked
update of claimed_tokens.  Returns the updated beneficiary and the
transferred amount. -/
def claimBen (b : Beneficiary) (now : Int) (escrow : Nat) :
    Except VestingError (Beneficiary × Nat) :=
  match claimCalc b now with
  | .error e => .error e
  | .ok claimable =>
    if claimable < U64_MOD then
      if claimable ≤ escrow then
        match checkedAddU64 b.claimed_tokens claimable with
        | none => .error .MathOverflow
        | some c => .ok ({ b with claimed_tokens := c }, claimable)
      else .error .InsufficientBalance
    else .error .MathOverflow

/-- The claim handler applied to the beneficiary list: position finds the
first entry whose key equals the sender (BeneficiaryNotFound otherwise) and
only that entry is updated. -/
def claimList (bs : List Beneficiary) (sender : Nat) (now : Int) (escrow : Nat) :
    Except VestingError (List Beneficiary × Nat) :=
  match bs with
  | [] => .error .BeneficiaryNotFound
  | b :: rest =>
    if b.key = sender then
      match claimBen b now escrow with
      | .error e => .error e
      | .ok (b', amt) => .ok (b' :: rest, amt)
    else
      match claimList rest sender now escrow with
      | .error e => .error e
      | .ok (bs', amt) => .ok (b :: bs', amt)

/-- The claim instruction on the data account.  The escrow PDA checks are
environment validation of caller-supplied addresses and sit outside the
state transition; escrow is the token balance snapshot of the escrow
wallet. -/
def claimOp (d : DataAccount) (sender : Nat) (now : Int) (escrow : Nat) :
    Except VestingError (DataAccount × Nat) :=
  match claimList d.beneficiaries sender now escrow with
  | .error e => .error e
  | .ok (bs, amt) => .ok ({ d with beneficiaries := bs }, amt)

/-- earliest_withdraw_time of the withdraw handler (lines 325 to 329): the
max of cliff end plus grace and vesting end plus grace. -/
def earliestWithdrawTime (b : Beneficiary) : Int :=
  max (b.start_time + (b.cliff_months : Int) * SECONDS_PER_MONTH + GRACE_PERIOD)
    (b.start_time + (b.total_months : Int) * SECONDS_PER_MONTH + GRACE_PERIOD)

/-- One iteration of the withdraw sweep loop on one beneficiary: past the
grace bound and with a positive saturating unclaimed remainder, the
beneficiary is marked fully claimed; the second component is the amount
swept from this beneficiary. -/
def sweepBen (b : Beneficiary) (now : Int) : Beneficiary × Nat :=
  if earliestWithdrawTime b < now then
    if 0 < b.allocated_tokens - b.claimed_tokens then
      ({ b with claimed_tokens := b.allocated_tokens },
        b.allocated_tokens - b.claimed_tokens)
    else (b, 0)
  else (b, 0)

/-- The withdraw sweep loop (lines 321 to 346) with the running
total_unclaimed and processed-count accumulators; both additions are
checked, and an overflow aborts the whole instruction (none). -/
def sweepLoop (bs : List Beneficiary) (now : Int) (total proc : Nat) :
    Option (List Beneficiary × Nat × Nat) :=
  match bs with
  | [] => some ([], total, proc)
  | b :: rest =>
    if 0 < (sweepBen b now).2 then
      match checkedAddU64 total (sweepBen b now).2 with
      | none => none
      | some t' =>
        match checkedAddU32 proc 1 with
        | none => none
        | some p' =>
          match sweepLoop rest now t' p' with
          | none => none
          | some (bs', T, P) => some ((sweepBen b now).1 :: bs', T, P)
    else
      match sweepLoop rest now total proc with
      | none => none
      | some (bs', T, P) => some (b :: bs', T, P)

/-- The withdraw instruction: admin authorization, the sweep loop, the
NoUnclaimedTokens and escrow balance requirements.  Returns the committed
state, the total withdrawn and the processed count. -/
def withdrawOp (d : DataAccount) (caller : Nat) (now : Int) (escrow : Nat) :
    Except VestingError (DataAccount × Nat × Nat) :=
  if d.authority = caller then
    match sweepLoop d.beneficiaries now 0 0 with
    | none => .error .MathOverflow
    | some (bs, total, proc) =>
      if 0 < total then
        if total ≤ escrow then .ok ({ d with beneficiaries := bs }, total, proc)
        else .error .InsufficientBalance
      else .error .NoUnclaimedTokens
  else .error .UnauthorizedAdmin

/-- The change_admin instruction: the data-account constraint requires the
caller to be the current authority, the new-admin constraints reject the
current admin and the default (null) identity, then authority is updated. -/
def changeAdminOp (d : DataAccount) (current new : Nat) : Except VestingError DataAccount :=
  if d.authority = current then
    if new = current then .error .SameAdmin
    else if new = 0 then .error .InvalidAddress
    else .ok { d with authority := new }
  else .error .UnauthorizedAdmin

/-- Per-beneficiary field checks of the creation validator, in source
order (lines 86 to 102): vesting period, cliff length, cliff versus total,
allocation, start-time bounds, divisibility of total by a positive cliff.
Returns the first violated rule. -/
def checkBen (b : Beneficiary) (now : Int) : Option VestingError :=
  if b.total_months < 1 then some .InvalidVestingPeriod
  else if 48 < b.cliff_months then some .CliffTooLong
  else if ¬ b.cliff_months < b.total_months then some .InvalidCliffPeriod
  else if b.allocated_tokens = 0 then some .InvalidAllocation
  else if b.start_time < now then some .InvalidStartTime
  else if now + MAX_START_DELAY < b.start_time then some .StartTimeTooFar
  else if 0 < b.cliff_months ∧ ¬ b.total_months % b.cliff_months = 0 then
    some .InvalidVestingConfig
  else none

/-- The single validation pass of the creation handler: for each
beneficiary in order, its field checks run, then its insertion into the
seen set; a failed insertion is the duplicate rejection (line 105). -/
def validateLoop (bs : List Beneficiary) (now : Int) (seen : List Nat) :
    Option VestingError :=
  match bs with
  | [] => none
  | b :: rest =>
    match checkBen b now with
    | some e => some e
    | none =>
      if b.key ∈ seen then some .DuplicateBeneficiary
      else validateLoop rest now (b.key :: seen)

/-- The allocation sum of the creation handler (lines 109 to 114),
folded with u64 checked_add. -/
def sumAllocated (bs : List Beneficiary) (acc : Nat) : Option Nat :=
  match bs with
  | [] => some acc
  | b :: rest =>
    match checkedAddU64 acc b.allocated_tokens with
    | none => none
    | some a => sumAllocated rest a

/-- The full creation-time validation (initialize handler, lines 77 to
115), in source order: list shape, amount, decimals, the per-beneficiary
pass, then the checked sum against the funded amount.  Returns the first
violated rule as some error, or none for a valid input. -/
def validateInit (bs : List Beneficiary) (amount decimals : Nat) (now : Int) :
    Option VestingError :=
  if bs.isEmpty then some .NoBeneficiaries
  else if MAX_BENEFICIARIES < bs.length then some .TooManyBeneficiaries
  else if amount = 0 then some .InvalidAmount
  else if MAX_DECIMALS < decimals then some .InvalidDecimals
  else
    match validateLoop bs now [] with
    | some e => some e
    | none =>
      match sumAllocated bs 0 with
      | none => some .MathOverflow
      | some s => if s ≤ amount then none else some .OverAllocation

/-- The creation instruction on a fresh data account (authority starts as
the default identity, so it is set to the sender): validation, the state
writes, then the funding-wallet balance requirement before the escrow
transfer.  On any error the account creation is reverted and no schedule
exists. -/
def initOp (sender : Nat) (bs : List Beneficiary) (amount decimals : Nat)
    (now : Int) (walletBalance escrow tokenMint : Nat) :
    Except VestingError DataAccount :=
  match validateInit bs amount decimals now with
  | some e => .error e
  | none =>
    if amount ≤ walletBalance then
      .ok ⟨amount, sender, escrow, tokenMint, bs, decimals⟩
    else .error .InsufficientBalance

/-- A state-mutating operation on an existing schedule, with its caller,
clock snapshot and escrow balance snapshot. -/
inductive Op where
  | claim (sender : Nat) (now : Int) (escrow : Nat)
  | withdraw (caller : Nat) (now : Int) (escrow : Nat)
deriving DecidableEq, Repr

/-- The observable effect of one operation: the committed state on
success, the unchanged pre-state when the instruction errors (the runtime
reverts all account writes of a failed instruction). -/
def applyOp (d : DataAccount) (op : Op) : DataAccount :=
  match op with
  | .claim s n e =>
    match claimOp d s n e with
    | .ok r => r.1
    | .error _ => d
  | .withdraw c n e =>
    match withdrawOp d c n e with
    | .ok r => r.1
    | .error _ => d

/-- The observable effect of a sequence of operations. -/
def applyOps (d : DataAccount) (ops : List Op) : DataAccount :=
  ops.foldl applyOp d

/-- The observable effect of change_admin. -/
def runChangeAdmin (d : DataAccount) (current new : Nat) : DataAccount :=
  match changeAdminOp d current new with
  | .ok d' => d'
  | .error _ => d

/-- claimed_tokens at index i of a beneficiary list, 0 past the end. -/
def claimsAt (bs : List Beneficiary) (i : Nat) : Nat :=
  (bs[i]?.map Beneficiary.claimed_tokens).getD 0

/-- allocated_tokens at index i of a beneficiary list, 0 past the end. -/
def allocsAt (bs : List Beneficiary) (i : Nat) : Nat :=
  (bs[i]?.map Beneficiary.allocated_tokens).getD 0

/-- claimed_tokens of the beneficiary at index i of the schedule. -/
def claimedAt (d : DataAccount) (i : Nat) : Nat :=
  claimsAt d.beneficiaries i

/-- allocated_tokens of the beneficiary at index i of the schedule. -/
def allocatedAt (d : DataAccount) (i : Nat) : Nat :=
  allocsAt d.beneficiaries i

/-- First present error of a list of optional errors. -/
def firstSome (l : List (Option VestingError)) : Option VestingError :=
  match l with
  | [] => none
  | some e :: _ => some e
  | none :: rest => firstSome rest

/-- The field-check pass of the validator as the specification words it:
rule 3 alone, ranging over every beneficiary before any duplicate check. -/
def fieldPass (bs : List Beneficiary) (now : Int) : Option VestingError :=
  match bs with
  | [] => none
  | b :: rest =>
    match checkBen b now with
    | some e => some e
    | none => fieldPass rest now

/-- The duplicate-identity pass as the specification words it: rule 4
alone, rejecting on the first duplicate. -/
def dupPass (bs : List Beneficiary) (seen : List Nat) : Option VestingError :=
  match bs with
  | [] => none
  | b :: rest =>
    if b.key ∈ seen then some .DuplicateBeneficiary
    else dupPass rest (b.key :: seen)

/-- Validator in the rule order the specification states: (1) list shape,
(2) amount and decimals, (3) all per-beneficiary field checks for every
beneficiary, (4) pairwise-distinct identities, (5) checked sum.  Written
from the words of the specification for comparison with validateInit. -/
def validateInitSpecOrder (bs : List Beneficiary) (amount decimals : Nat)
    (now : Int) : Option VestingError :=
  if bs.isEmpty then some .NoBeneficiaries
  else if MAX_BENEFICIARIES < bs.length then some .TooManyBeneficiaries
  else if amount = 0 then some .InvalidAmount
  else if MAX_DECIMALS < decimals then some .InvalidDecimals
  else
    match fieldPass bs now with
    | some e => some e
    | none =>
      match dupPass bs [] with
      | some e => some e
      | none =>
        match sumAllocated bs 0 with
        | none => some .MathOverflow
        | some s => if s ≤ amount then none else some .OverAllocation

/-- The checks one beneficiary undergoes in the single interleaved pass of
the source: its field checks first, then its duplicate check against the
beneficiaries before it. -/
def benCheckWithDup (b : Beneficiary) (now : Int) (seen : List Nat) :
    Option VestingError :=
  match checkBen b now with
  | some e => some e
  | none => if b.key ∈ seen then some .DuplicateBeneficiary else none

/-- The interleaved per-beneficiary error sequence: one entry per
beneficiary in list order, each combining field checks and the duplicate
check against all earlier keys. -/
def interleavedErrs (bs : List Beneficiary) (now : Int) (seen : List Nat) :
    List (Option VestingError) :=
  match bs with
  | [] => []
  | b :: rest => benCheckWithDup b now seen :: interleavedErrs rest now (b.key :: seen)

/-- Validator in the order the source actually checks: (1) list shape,
(2) amount and decimals, then one pass in which each beneficiary gets its
field checks immediately followed by its duplicate check, then (5) the
checked sum. -/
def validateInterleavedOrder (bs : List Beneficiary) (amount decimals : Nat)
    (now : Int) : Option VestingError :=
  if bs.isEmpty then some .NoBeneficiaries
  else if MAX_BENEFICIARIES < bs.length then some .TooManyBeneficiaries
  else if amount = 0 then some .InvalidAmount
  else if MAX_DECIMALS < decimals then some .InvalidDecimals
  else
    match firstSome (interleavedErrs bs now []) with
    | some e => some e
    | none =>
      match sumAllocated bs 0 with
      | none => some .MathOverflow
      | some s => if s ≤ amount then none else some .OverAllocation

/-- Shifting start time and clock together leaves months elapsed fixed. -/
theorem monthsElapsed_shift (t off : Int) :
    monthsElapsed t (t + off) = monthsElapsed 0 off := by
  unfold monthsElapsed
  have h1 : t + off - t = off - 0 := by ring
  rw [h1]
  by_cases h : 0 ≤ off
  · rw [if_pos (by omega : t ≤ t + off), if_pos h]
  · rw [if_neg (by omega : ¬ t ≤ t + off), if_neg h]

/-- Shifting start time and clock together leaves months vested fixed. -/
theorem monthsVested_shift (k a c cm tm : Nat) (t off : Int) :
    monthsVested ⟨k, a, c, t, cm, tm⟩ (t + off) = monthsVested ⟨k, a, c, 0, cm, tm⟩ off := by
  unfold monthsVested vestingSpan
  dsimp only
  rw [monthsElapsed_shift]

/-- Shifting start time and clock together leaves the unlocked amount fixed. -/
theorem unlockedOpt_shift (k a c cm tm : Nat) (t off : Int) :
    unlockedOpt ⟨k, a, c, t, cm, tm⟩ (t + off) = unlockedOpt ⟨k, a, c, 0, cm, tm⟩ off := by
  unfold unlockedOpt monthsVested vestingSpan
  dsimp only
  rw [monthsElapsed_shift]

/-- Shifting start time and clock together leaves the claim result fixed. -/
theorem claimCalc_shift (k a c cm tm : Nat) (t off : Int) :
    claimCalc ⟨k, a, c, t, cm, tm⟩ (t + off) = claimCalc ⟨k, a, c, 0, cm, tm⟩ off := by
  unfold claimCalc unlockedOpt monthsVested vestingSpan
  dsimp only
  rw [monthsElapsed_shift]

/-- Claim C1: for the scenario-A beneficiary (allocated 1200000, cliff 3
months, total 12 months, start T0, claimed 0) and every start instant T0,
the claim calculation fails with CliffNotReached one second before the
cliff, fails with ClaimNotAllowed at exactly the cliff where months vested
is 0, and at T0 plus four months computes months vested 1, vesting span 9,
unlocked floor(1200000 * 1 / 9) = 133333 and claimable 133333. -/
theorem c1_scenario_a (T0 : Int) :
    claimCalc ⟨1, 1200000, 0, T0, 3, 12⟩ (T0 + (3 * 2629776 - 1)) = .error .CliffNotReached
      ∧ claimCalc ⟨1, 1200000, 0, T0, 3, 12⟩ (T0 + 3 * 2629776) = .error .ClaimNotAllowed
      ∧ monthsVested ⟨1, 1200000, 0, T0, 3, 12⟩ (T0 + 3 * 2629776) = 0
      ∧ monthsVested ⟨1, 1200000, 0, T0, 3, 12⟩ (T0 + 4 * 2629776) = 1
      ∧ vestingSpan ⟨1, 1200000, 0, T0, 3, 12⟩ = 9
      ∧ unlockedOpt ⟨1, 1200000, 0, T0, 3, 12⟩ (T0 + 4 * 2629776) = some 133333
      ∧ claimCalc ⟨1, 1200000, 0, T0, 3, 12⟩ (T0 + 4 * 2629776) = .ok 133333 := by
  refine ⟨?_, ?_, ?_, ?_, ?_, ?_, ?_⟩
  · rw [show T0 + (3 * 2629776 - 1) = T0 + 7889327 by omega, claimCalc_shift]
    rfl
  · rw [show T0 + 3 * 2629776 = T0 + 7889328 by omega, claimCalc_shift]
    rfl
  · rw [show T0 + 3 * 2629776 = T0 + 7889328 by omega, monthsVested_shift]
    rfl
  · rw [show T0 + 4 * 2629776 = T0 + 10519104 by omega, monthsVested_shift]
    rfl
  · show u64Sub 12 3 = 9
    decide
  · rw [show T0 + 4 * 2629776 = T0 + 10519104 by omega, unlockedOpt_shift]
    rfl
  · rw [show T0 + 4 * 2629776 = T0 + 10519104 by omega, claimCalc_shift]
    rfl

/-- The unlocked amount never exceeds the allocation. -/
theorem unlocked_le_allocated (b : Beneficiary) (now : Int) (u : Nat)
    (h : unlockedOpt b now = some u) : u ≤ b.allocated_tokens := by
  have hmv : monthsVested b now ≤ vestingSpan b := min_le_right _ _
  unfold unlockedOpt checkedMulU128 checkedDivU128 at h
  split at h
  · exact (Option.some_inj.mp h) ▸ le_rfl
  · split at h
    · cases h
    · rename_i p heq
      split at h
      · cases h
      · rename_i hspan
        have hp : p = b.allocated_tokens * monthsVested b now := by
          by_cases hm : b.allocated_tokens * monthsVested b now < U128_MOD
          · rw [if_pos hm] at heq
            exact (Option.some_inj.mp heq).symm
          · rw [if_neg hm] at heq
            cases heq
        have hu : u = p / vestingSpan b := (Option.some_inj.mp h).symm
        rw [hu, hp]
        calc b.allocated_tokens * monthsVested b now / vestingSpan b
            ≤ b.allocated_tokens * vestingSpan b / vestingSpan b :=
              Nat.div_le_div_right (Nat.mul_le_mul le_rfl hmv)
          _ = b.allocated_tokens := Nat.mul_div_cancel _ (Nat.pos_of_ne_zero hspan)

/-- A successful claim calculation returns a positive amount that tops the
claimed total up to at most the allocation (at most the old claimed value
when that already exceeds the allocation). -/
theorem claimCalc_ok_bound (b : Beneficiary) (now : Int) (v : Nat)
    (h : claimCalc b now = .ok v) :
    0 < v ∧ b.claimed_tokens + v ≤ max b.claimed_tokens b.allocated_tokens := by
  unfold claimCalc at h
  split at h
  · cases h
  · split at h
    · cases h
    · split at h
      · cases h
      · rename_i u hu
        split at h
        · rename_i hpos
          have hv : v = u - b.claimed_tokens := by
            injection h with h1
            exact h1.symm
          have hle : u ≤ b.allocated_tokens := unlocked_le_allocated b now u hu
          subst hv
          exact ⟨hpos, by omega⟩
        · cases h

/-- A successful per-beneficiary claim leaves the allocation unchanged and
moves claimed_tokens up, at most to the allocation. -/
theorem claimBen_effect (b b' : Beneficiary) (now : Int) (escrow amt : Nat)
    (h : claimBen b now escrow = .ok (b', amt)) :
    b'.allocated_tokens = b.allocated_tokens
      ∧ b.claimed_tokens ≤ b'.claimed_tokens
      ∧ b'.claimed_tokens ≤ max b.claimed_tokens b.allocated_tokens := by
  unfold claimBen checkedAddU64 at h
  split at h
  · cases h
  · rename_i v hv
    split at h
    · split at h
      · split at h
        · cases h
        · rename_i c heq
          have hc : c = b.claimed_tokens + v := by
            by_cases hlt : b.claimed_tokens + v < U64_MOD
            · rw [if_pos hlt] at heq
              exact (Option.some_inj.mp heq).symm
            · rw [if_neg hlt] at heq
              cases heq
          injection h with h1
          injection h1 with hb hamt
          have hbound := claimCalc_ok_bound b now v hv
          rw [← hb]
          refine ⟨rfl, ?_, ?_⟩ <;> dsimp only <;> omega
      · cases h
    · cases h

/-- Pointwise effect of the claim handler on the beneficiary list: every
allocation is unchanged and every claimed value moves up, bounded by the
allocation once it started below it. -/
theorem claimList_claims (bs : List Beneficiary) (sender : Nat) (now : Int)
    (escrow : Nat) (bs' : List Beneficiary) (amt : Nat)
    (h : claimList bs sender now escrow = .ok (bs', amt)) :
    ∀ i, allocsAt bs' i = allocsAt bs i
      ∧ claimsAt bs i ≤ claimsAt bs' i
      ∧ claimsAt bs' i ≤ max (claimsAt bs i) (allocsAt bs i) := by
  induction bs generalizing bs' amt with
  | nil => simp [claimList] at h
  | cons b rest ih =>
    simp only [claimList] at h
    split at h
    · split at h
      · cases h
      · rename_i b0 amt0 hben
        injection h with h1
        injection h1 with hlist hamt
        subst hlist
        intro i
        cases i with
        | zero =>
          have := claimBen_effect b b0 now escrow amt0 hben
          simpa [claimsAt, allocsAt] using this
        | succ j =>
          simp [claimsAt, allocsAt]
    · split at h
      · cases h
      · rename_i bs0 amt0 hrec
        injection h with h1
        injection h1 with hlist hamt
        subst hlist
        intro i
        cases i with
        | zero => simp [claimsAt, allocsAt]
        | succ j =>
          have := ih bs0 amt0 hrec j
          simpa [claimsAt, allocsAt] using this

/-- Pointwise effect of one sweep-loop iteration on one beneficiary. -/
theorem sweepBen_effect (b : Beneficiary) (now : Int) :
    (sweepBen b now).1.allocated_tokens = b.allocated_tokens
      ∧ b.claimed_tokens ≤ (sweepBen b now).1.claimed_tokens
      ∧ (sweepBen b now).1.claimed_tokens ≤ max b.claimed_tokens b.allocated_tokens := by
  unfold sweepBen
  split
  · split
    · rename_i hgt
      refine ⟨rfl, ?_, ?_⟩ <;> dsimp only <;> omega
    · exact ⟨rfl, le_rfl, le_max_left _ _⟩
  · exact ⟨rfl, le_rfl, le_max_left _ _⟩

/-- Pointwise effect of the withdraw sweep loop on the beneficiary list. -/
theorem sweepLoop_claims (bs : List Beneficiary) (now : Int) (t p : Nat)
    (bs' : List Beneficiary) (T P : Nat)
    (h : sweepLoop bs now t p = some (bs', T, P)) :
    ∀ i, allocsAt bs' i = allocsAt bs i
      ∧ claimsAt bs i ≤ claimsAt bs' i
      ∧ claimsAt bs' i ≤ max (claimsAt bs i) (allocsAt bs i) := by
  induction bs generalizing t p bs' T P with
  | nil =>
    simp only [sweepLoop, Option.some_inj] at h
    injection h with h1 h2
    subst h1
    intro i
    exact ⟨rfl, le_rfl, le_max_left _ _⟩
  | cons b rest ih =>
    simp only [sweepLoop] at h
    split at h
    · split at h
      · cases h
      · split at h
        · cases h
        · split at h
          · cases h
          · rename_i bs0 T0 P0 hrec
            injection h with h1
            injection h1 with hlist hTP
            subst hlist
            intro i
            cases i with
            | zero =>
              have := sweepBen_effect b now
              simpa [claimsAt, allocsAt] using this
            | succ j =>
              have := ih _ _ bs0 T0 P0 hrec j
              simpa [claimsAt, allocsAt] using this
    · split at h
      · cases h
      · rename_i bs0 T0 P0 hrec
        injection h with h1
        injection h1 with hlist hTP
        subst hlist
        intro i
        cases i with
        | zero => simp [claimsAt, allocsAt]
        | succ j =>
          have := ih _ _ bs0 T0 P0 hrec j
          simpa [claimsAt, allocsAt] using this

/-- Pointwise effect of one observable operation on the schedule. -/
theorem applyOp_claims (d : DataAccount) (op : Op) (i : Nat) :
    allocatedAt (applyOp d op) i = allocatedAt d i
      ∧ claimedAt d i ≤ claimedAt (applyOp d op) i
      ∧ claimedAt (applyOp d op) i ≤ max (claimedAt d i) (allocatedAt d i) := by
  cases op with
  | claim s n e =>
    cases hc : claimOp d s n e with
    | error err =>
      have hred : applyOp d (Op.claim s n e) = d := by simp [applyOp, hc]
      rw [hred]
      exact ⟨rfl, le_rfl, le_max_left _ _⟩
    | ok r =>
      simp only [applyOp, hc]
      unfold claimOp at hc
      split at hc
      · cases hc
      · rename_i bs0 amt0 hlist
        injection hc with h1
        rw [← h1]
        exact claimList_claims d.beneficiaries s n e bs0 amt0 hlist i
  | withdraw c n e =>
    cases hc : withdrawOp d c n e with
    | error err =>
      have hred : applyOp d (Op.withdraw c n e) = d := by simp [applyOp, hc]
      rw [hred]
      exact ⟨rfl, le_rfl, le_max_left _ _⟩
    | ok r =>
      simp only [applyOp, hc]
      unfold withdrawOp at hc
      split at hc
      · split at hc
        · cases hc
        · rename_i bs0 T0 P0 hloop
          split at hc
          · split at hc
            · injection hc with h1
              rw [← h1]
              exact sweepLoop_claims d.beneficiaries n 0 0 bs0 T0 P0 hloop i
            · cases hc
          · cases hc
      · cases hc

/-- Pointwise effect of a sequence of observable operations. -/
theorem applyOps_claims (ops : List Op) (d : DataAccount) (i : Nat) :
    allocatedAt (applyOps d ops) i = allocatedAt d i
      ∧ claimedAt d i ≤ claimedAt (applyOps d ops) i
      ∧ claimedAt (applyOps d ops) i ≤ max (claimedAt d i) (allocatedAt d i) := by
  induction ops generalizing d with
  | nil => exact ⟨rfl, le_rfl, le_max_left _ _⟩
  | cons op ops ih =>
    have h1 := applyOp_claims d op i
    have h2 := ih (applyOp d op)
    have hstep : applyOps d (op :: ops) = applyOps (applyOp d op) ops := rfl
    rw [hstep]
    omega

/-- Claim C2: for a schedule satisfying the invariant that every claimed
value is at most its allocation, and for every sequence of claim and
withdraw operations, each claimed value is monotonically non-decreasing
across successive operations and never exceeds the allocation. -/
theorem c2_claimed_monotone_bounded (d : DataAccount)
    (hinv : ∀ i, claimedAt d i ≤ allocatedAt d i)
    (ops1 ops2 : List Op) (i : Nat) :
    claimedAt (applyOps d ops1) i ≤ claimedAt (applyOps d (ops1 ++ ops2)) i
      ∧ claimedAt (applyOps d (ops1 ++ ops2)) i ≤ allocatedAt d i := by
  have happ : applyOps d (ops1 ++ ops2) = applyOps (applyOps d ops1) ops2 :=
    List.foldl_append _ _ _ _
  have h1 := applyOps_claims ops1 d i
  have h2 := applyOps_claims ops2 (applyOps d ops1) i
  have h3 := hinv i
  rw [happ]
  omega

/-- Schedule fixture: one beneficiary, allocation 10, nothing claimed,
vesting one month from time 0 with no cliff, admin identity 1. -/
def dFix : DataAccount := ⟨100, 1, 0, 0, [⟨5, 10, 0, 0, 0, 1⟩], 0⟩

/-- Witness for claim C2 at a concrete schedule and operation sequence. -/
theorem c2_witness :
    claimedAt (applyOps dFix [Op.claim 5 2629776 10]) 0
        ≤ claimedAt (applyOps dFix ([Op.claim 5 2629776 10] ++ [])) 0
      ∧ claimedAt (applyOps dFix ([Op.claim 5 2629776 10] ++ [])) 0 ≤ allocatedAt dFix 0 :=
  c2_claimed_monotone_bounded dFix
    (fun i => by
      cases i with
      | zero => decide
      | succ j => simp [claimedAt, allocatedAt, claimsAt, allocsAt, dFix])
    [Op.claim 5 2629776 10] [] 0

/-- Claim C7: whenever months vested reaches (or exceeds) the vesting
span, the unlocked amount of the claim calculation is exactly the full
allocation, with no rounding loss at full vesting. -/
theorem c7_full_vesting_exact (b : Beneficiary) (now : Int)
    (h : vestingSpan b ≤ monthsVested b now) :
    unlockedOpt b now = some b.allocated_tokens := by
  unfold unlockedOpt
  rw [if_pos h]

/-- Witness for claim C7: a beneficiary fully vested one month in. -/
theorem c7_witness :
    unlockedOpt ⟨1, 10, 0, 0, 0, 1⟩ 2629776 = some 10 :=
  c7_full_vesting_exact ⟨1, 10, 0, 0, 0, 1⟩ 2629776 (by decide)

/-- Wrapping u64 subtraction agrees with Nat subtraction when the
subtrahend is no larger than a minuend below the modulus. -/
theorem u64Sub_eq_sub (a b : Nat) (hba : b ≤ a) (ha : a < U64_MOD) :
    u64Sub a b = a - b := by
  unfold u64Sub U64_MOD at *
  omega

/-- Claim C8: under the schedule invariants (allocation a u64 value,
total months at most 255, cliff strictly below total so the span is
positive), the checked 128-bit computation of the unlocked amount always
succeeds: neither checked_mul nor checked_div can fail, so the
MathOverflow branches of that computation are unreachable. -/
theorem c8_unlocked_never_overflows (b : Beneficiary) (now : Int)
    (ha : b.allocated_tokens < U64_MOD) (hct : b.cliff_months < b.total_months)
    (ht : b.total_months ≤ 255) :
    (unlockedOpt b now).isSome = true := by
  have hspan : vestingSpan b = b.total_months - b.cliff_months := by
    apply u64Sub_eq_sub _ _ (le_of_lt hct)
    unfold U64_MOD
    omega
  unfold unlockedOpt
  by_cases h : vestingSpan b ≤ monthsVested b now
  · rw [if_pos h]
    rfl
  · rw [if_neg h]
    have hmv : monthsVested b now < vestingSpan b := lt_of_not_le h
    have h255 : monthsVested b now ≤ 255 := by
      rw [hspan] at hmv
      omega
    have hprod : b.allocated_tokens * monthsVested b now < U128_MOD := by
      have h1 : b.allocated_tokens * monthsVested b now ≤ b.allocated_tokens * 255 :=
        Nat.mul_le_mul le_rfl h255
      have h2 : b.allocated_tokens * 255 < U64_MOD * 255 :=
        mul_lt_mul_of_pos_right ha (by norm_num)
      have h3 : U64_MOD * 255 < U128_MOD := by decide
      omega
    have hz : ¬ vestingSpan b = 0 := by omega
    unfold checkedMulU128
    rw [if_pos hprod]
    show (checkedDivU128 (b.allocated_tokens * monthsVested b now) (vestingSpan b)).isSome = true
    unfold checkedDivU128
    rw [if_neg hz]
    rfl

/-- Witness for claim C8: a partially vested u64-sized allocation. -/
theorem c8_witness :
    (unlockedOpt ⟨1, 1200000, 0, 0, 3, 12⟩ 10519104).isSome = true :=
  c8_unlocked_never_overflows ⟨1, 1200000, 0, 0, 3, 12⟩ 10519104
    (by decide) (by decide) (by decide)

/-- Claim C3 counterexample: for a beneficiary with cliff_months = 0 and
now strictly before start_time, the claim calculation fails with
ClaimNotAllowed, not with CliffNotReached as the claim states for every
beneficiary including those with cliff_months = 0. -/
theorem c3_counterexample :
    claimCalc ⟨0, 1, 0, 100, 0, 1⟩ 0 = .error .ClaimNotAllowed
      ∧ VestingError.ClaimNotAllowed ≠ VestingError.CliffNotReached :=
  ⟨rfl, by decide⟩

/-- When position finds the sender at the first key match and the
per-beneficiary claim fails, the whole handler returns that error. -/
theorem claimList_error_of_found (bs : List Beneficiary) (sender : Nat)
    (now : Int) (escrow : Nat) (b : Beneficiary) (e : VestingError)
    (hfind : bs.find? (fun x => x.key == sender) = some b)
    (hben : claimBen b now escrow = .error e) :
    claimList bs sender now escrow = .error e := by
  induction bs with
  | nil => cases hfind
  | cons b0 rest ih =>
    by_cases hk : b0.key = sender
    · simp only [List.find?, hk, beq_self_eq_true, Option.some_inj] at hfind
      subst hfind
      simp [claimList, hk, hben]
    · have hp : (b0.key == sender) = false := by
        simp [hk]
      simp only [List.find?, hp] at hfind
      simp [claimList, hk, ih hfind]

/-- Claim C3 amended: for every beneficiary with cliff_months at least 1
(and a valid u8 configuration with cliff below total), and every now
strictly before start_time plus cliff_months months, the claim operation
fails with CliffNotReached and mutates no state; with cliff_months = 0 the
cliff gate never fires (see the counterexample, where the operation fails
with ClaimNotAllowed instead). -/
theorem c3_cliff_not_reached_amended (b : Beneficiary) (now : Int)
    (h1 : 1 ≤ b.cliff_months) (h2 : b.cliff_months < b.total_months)
    (h3 : b.total_months ≤ 255)
    (h4 : now < b.start_time + (b.cliff_months : Int) * SECONDS_PER_MONTH) :
    claimCalc b now = .error .CliffNotReached
      ∧ ∀ (d : DataAccount) (sender escrow : Nat),
          d.beneficiaries.find? (fun x => x.key == sender) = some b →
          claimOp d sender now escrow = .error .CliffNotReached
            ∧ applyOp d (.claim sender now escrow) = d := by
  have hspan : vestingSpan b = b.total_months - b.cliff_months := by
    apply u64Sub_eq_sub _ _ (le_of_lt h2)
    unfold U64_MOD
    omega
  have hz : ¬ vestingSpan b = 0 := by omega
  have hme : monthsElapsed b.start_time now < b.cliff_months := by
    unfold monthsElapsed
    by_cases hsn : b.start_time ≤ now
    · rw [if_pos hsn]
      have hd : (now - b.start_time).toNat < b.cliff_months * 2629776 := by
        unfold SECONDS_PER_MONTH at h4
        omega
      have hmin : min (now - b.start_time).toNat I64_MAX ≤ (now - b.start_time).toNat :=
        min_le_left _ _
      exact (Nat.div_lt_iff_lt_mul (by norm_num)).mpr (by omega)
    · rw [if_neg hsn]
      omega
  have hcalc : claimCalc b now = .error .CliffNotReached := by
    unfold claimCalc
    rw [if_neg hz, if_pos hme]
  refine ⟨hcalc, fun d sender escrow hfind => ?_⟩
  have hben : claimBen b now escrow = .error .CliffNotReached := by
    unfold claimBen
    rw [hcalc]
  have hlist := claimList_error_of_found d.beneficiaries sender now escrow b _ hfind hben
  have hop : claimOp d sender now escrow = .error .CliffNotReached := by
    unfold claimOp
    rw [hlist]
  exact ⟨hop, by simp [applyOp, hop]⟩

/-- Witness for amended claim C3 at a concrete beneficiary inside the
cliff window. -/
theorem c3_witness :
    claimCalc ⟨1, 100, 0, 0, 1, 2⟩ 0 = .error .CliffNotReached :=
  (c3_cliff_not_reached_amended ⟨1, 100, 0, 0, 1, 2⟩ 0
    (by decide) (by decide) (by decide) (by decide)).1

/-- Claim C9 counterexample: after a successful change_admin from admin 1
to admin 2, a further change_admin by admin 2 succeeds, so the admin role
is not one-time-transferable. -/
theorem c9_counterexample :
    changeAdminOp ⟨0, 1, 0, 0, [], 0⟩ 1 2 = .ok ⟨0, 2, 0, 0, [], 0⟩
      ∧ (changeAdminOp ⟨0, 2, 0, 0, [], 0⟩ 2 3).isOk = true :=
  ⟨rfl, rfl⟩

/-- Claim C9 amended: the admin role is transferable repeatedly, not just
once: after any successful change_admin to a new admin, the schedule
authority is that new admin, and a further change_admin succeeds exactly
when called by the new admin with a target that is neither the new admin
itself nor the null identity. -/
theorem c9_admin_transferable_repeatedly (d d' : DataAccount) (cur new : Nat)
    (h : changeAdminOp d cur new = .ok d') :
    d'.authority = new
      ∧ ∀ x c, (changeAdminOp d' x c).isOk = true ↔ x = new ∧ ¬ c = new ∧ ¬ c = 0 := by
  have hauth : d'.authority = new := by
    unfold changeAdminOp at h
    split at h
    · split at h
      · cases h
      · split at h
        · cases h
        · injection h with h1
          rw [← h1]
    · cases h
  refine ⟨hauth, fun x c => ?_⟩
  constructor
  · intro hsucc
    unfold changeAdminOp at hsucc
    rw [hauth] at hsucc
    split at hsucc
    · rename_i hx
      subst hx
      split at hsucc
      · exact absurd hsucc (by simp [Except.isOk, Except.toBool])
      · split at hsucc
        · exact absurd hsucc (by simp [Except.isOk, Except.toBool])
        · rename_i hcn hc0
          exact ⟨rfl, hcn, hc0⟩
    · exact absurd hsucc (by simp [Except.isOk, Except.toBool])
  · rintro ⟨hxn, hcn, hc0⟩
    subst hxn
    unfold changeAdminOp
    rw [hauth, if_pos rfl, if_neg hcn, if_neg hc0]
    rfl

/-- Witness for amended claim C9: a concrete successful admin change. -/
theorem c9_witness :
    DataAccount.authority ⟨0, 2, 0, 0, [], 0⟩ = 2 :=
  (c9_admin_transferable_repeatedly ⟨0, 1, 0, 0, [], 0⟩ ⟨0, 2, 0, 0, [], 0⟩ 1 2 rfl).1

/-- Claim C6: every failure path of every operation leaves the observable
schedule state exactly as it was: a failed claim, withdraw or change_admin
commits nothing, a failed creation creates no schedule, and in particular
a withdraw that fails with InsufficientBalance after its sweep loop leaves
every claimed value unchanged. -/
theorem c6_no_partial_state_on_failure (d : DataAccount) (s c a : Nat)
    (now : Int) (e : Nat) (bs : List Beneficiary)
    (amount dec wbal esc mint : Nat) :
    ((claimOp d s now e).isOk = false → applyOp d (.claim s now e) = d)
      ∧ ((withdrawOp d c now e).isOk = false → applyOp d (.withdraw c now e) = d)
      ∧ ((changeAdminOp d c a).isOk = false → runChangeAdmin d c a = d)
      ∧ ((initOp s bs amount dec now wbal esc mint).isOk = false →
          (initOp s bs amount dec now wbal esc mint).toOption = none)
      ∧ (withdrawOp d c now e = .error .InsufficientBalance →
          applyOp d (.withdraw c now e) = d) := by
  refine ⟨?_, ?_, ?_, ?_, ?_⟩
  · intro h
    cases hc : claimOp d s now e with
    | ok r =>
      rw [hc] at h
      simp [Except.isOk, Except.toBool] at h
    | error err => simp [applyOp, hc]
  · intro h
    cases hc : withdrawOp d c now e with
    | ok r =>
      rw [hc] at h
      simp [Except.isOk, Except.toBool] at h
    | error err => simp [applyOp, hc]
  · intro h
    cases hc : changeAdminOp d c a with
    | ok r =>
      rw [hc] at h
      simp [Except.isOk, Except.toBool] at h
    | error err => simp [runChangeAdmin, hc]
  · intro h
    cases hc : initOp s bs amount dec now wbal esc mint with
    | ok r =>
      rw [hc] at h
      simp [Except.isOk, Except.toBool] at h
    | error err => rfl
  · intro h
    simp [applyOp, h]

/-- Witness for claim C6: a withdraw failing with InsufficientBalance
leaves the schedule unchanged. -/
theorem c6_witness :
    applyOp dFix (.withdraw 1 18408433 5) = dFix :=
  (c6_no_partial_state_on_failure dFix 5 1 0 18408433 5 [] 0 0 0 0 0).2.2.2.2 rfl

/-- Two duplicated valid beneficiaries followed by one with an invalid
vesting period: the input violates the field-check rule (at index 2) and
the duplicate rule (at index 1) simultaneously. -/
def bsC5 : List Beneficiary :=
  [⟨1, 1, 0, 0, 0, 1⟩, ⟨1, 1, 0, 0, 0, 1⟩, ⟨2, 1, 0, 0, 0, 0⟩]

/-- Claim C5 counterexample: on an input violating both rule 3 (a later
beneficiary with total_months = 0) and rule 4 (an earlier duplicate), the
source validator reports DuplicateBeneficiary while the rule order stated
by the claim demands the rule-3 error InvalidVestingPeriod: the duplicate
check is not a separate later pass. -/
theorem c5_counterexample :
    validateInit bsC5 10 0 0 = some .DuplicateBeneficiary
      ∧ validateInitSpecOrder bsC5 10 0 0 = some .InvalidVestingPeriod
      ∧ VestingError.DuplicateBeneficiary ≠ VestingError.InvalidVestingPeriod :=
  ⟨rfl, rfl, by decide⟩

/-- The source validation pass equals the first error of the interleaved
per-beneficiary check sequence. -/
theorem validateLoop_eq_firstSome (bs : List Beneficiary) (now : Int)
    (seen : List Nat) :
    validateLoop bs now seen = firstSome (interleavedErrs bs now seen) := by
  induction bs generalizing seen with
  | nil => rfl
  | cons b rest ih =>
    simp only [validateLoop, interleavedErrs, benCheckWithDup]
    cases hcb : checkBen b now with
    | some e => simp [firstSome]
    | none =>
      by_cases hmem : b.key ∈ seen
      · simp [hmem, firstSome]
      · simp [hmem, firstSome, ih]

/-- Claim C5 amended: the creation checks run in the order (1) list
non-empty and at most 50 entries, (2) amount positive and decimals at most
9, then one pass over the beneficiaries in which each beneficiary gets its
field checks immediately followed by its own duplicate-against-earlier
check, then (5) the overflow-checked sum bound; the error returned for an
input violating several rules is that of the earliest failing check in
this interleaved order. -/
theorem c5_validation_order_amended (bs : List Beneficiary)
    (amount decimals : Nat) (now : Int) :
    validateInit bs amount decimals now = validateInterleavedOrder bs amount decimals now := by
  unfold validateInit validateInterleavedOrder
  rw [validateLoop_eq_firstSome]

/-- The sweep loop returns every entry whose grace bound has not passed
exactly as it found it. -/
theorem sweepLoop_frame (bs : List Beneficiary) (now : Int) (t p : Nat)
    (bs' : List Beneficiary) (T P : Nat)
    (h : sweepLoop bs now t p = some (bs', T, P)) :
    ∀ (i : Nat) (b : Beneficiary),
      bs[i]? = some b → ¬ earliestWithdrawTime b < now → bs'[i]? = some b := by
  induction bs generalizing t p bs' T P with
  | nil =>
    simp only [sweepLoop, Option.some_inj] at h
    injection h with h1 h2
    subst h1
    intro i b hb hng
    simp at hb
  | cons b0 rest ih =>
    simp only [sweepLoop] at h
    split at h
    · rename_i hpos
      split at h
      · cases h
      · split at h
        · cases h
        · split at h
          · cases h
          · rename_i bs0 T0 P0 hrec
            injection h with h1
            injection h1 with hlist hTP
            subst hlist
            intro i b hb hng
            cases i with
            | zero =>
              rw [List.getElem?_cons_zero] at hb
              have hb0 : b0 = b := Option.some_inj.mp hb
              subst hb0
              exfalso
              unfold sweepBen at hpos
              rw [if_neg hng] at hpos
              exact absurd hpos (by omega)
            | succ j =>
              rw [List.getElem?_cons_succ] at hb
              rw [List.getElem?_cons_succ]
              exact ih _ _ _ _ _ hrec j b hb hng
    · rename_i hneg
      split at h
      · cases h
      · rename_i bs0 T0 P0 hrec
        injection h with h1
        injection h1 with hlist hTP
        subst hlist
        intro i b hb hng
        cases i with
        | zero =>
          rw [List.getElem?_cons_zero] at hb
          rw [List.getElem?_cons_zero]
          exact hb
        | succ j =>
          rw [List.getElem?_cons_succ] at hb
          rw [List.getElem?_cons_succ]
          exact ih _ _ _ _ _ hrec j b hb hng

/-- Claim C4: the sweep only modifies beneficiaries whose clock lies past
start time plus total months plus the six month grace period: every other
entry is returned unchanged by a successful withdraw, and under the
invariant cliff below total the source bound max(cliff end + grace,
vesting end + grace) equals vesting end + grace. -/
theorem c4_sweep_frame :
    (∀ b : Beneficiary, b.cliff_months < b.total_months →
        earliestWithdrawTime b
          = b.start_time + (b.total_months : Int) * SECONDS_PER_MONTH
            + 6 * SECONDS_PER_MONTH)
      ∧ ∀ (d : DataAccount) (caller : Nat) (now : Int) (escrow : Nat)
          (d' : DataAccount) (t p i : Nat) (b : Beneficiary),
          withdrawOp d caller now escrow = .ok (d', t, p) →
          d.beneficiaries[i]? = some b →
          b.cliff_months < b.total_months →
          ¬ b.start_time + (b.total_months : Int) * SECONDS_PER_MONTH
              + 6 * SECONDS_PER_MONTH < now →
          d'.beneficiaries[i]? = some b := by
  have hbound : ∀ b : Beneficiary, b.cliff_months < b.total_months →
      earliestWithdrawTime b
        = b.start_time + (b.total_months : Int) * SECONDS_PER_MONTH
          + 6 * SECONDS_PER_MONTH := by
    intro b hct
    unfold earliestWithdrawTime GRACE_PERIOD SECONDS_PER_MONTH
    rw [max_eq_right (by omega)]
  refine ⟨hbound, ?_⟩
  intro d caller now escrow d' t p i b hop hb hct hng
  unfold withdrawOp at hop
  split at hop
  · split at hop
    · cases hop
    · rename_i bs0 T0 P0 hloop
      split at hop
      · split at hop
        · injection hop with h1
          injection h1 with hd hTP
          rw [← hd]
          show bs0[i]? = some b
          refine sweepLoop_frame d.beneficiaries now 0 0 bs0 T0 P0 hloop i b hb ?_
          rw [hbound b hct]
          exact hng
        · cases hop
      · cases hop
  · cases hop

/-- Witness fixture for the sweep theorems: a second beneficiary whose
vesting starts far in the future, so its grace bound has not passed. -/
def dTwo : DataAccount :=
  ⟨100, 1, 0, 0, [⟨5, 10, 0, 0, 0, 1⟩, ⟨6, 10, 0, 10000000000, 0, 1⟩], 0⟩

/-- The state dTwo reaches after sweeping its first beneficiary. -/
def dTwoSwept : DataAccount :=
  ⟨100, 1, 0, 0, [⟨5, 10, 10, 0, 0, 1⟩, ⟨6, 10, 0, 10000000000, 0, 1⟩], 0⟩

/-- Witness for claim C4: after a successful sweep hitting the first
beneficiary, the second (still inside its vesting window) is unchanged. -/
theorem c4_witness :
    withdrawOp dTwo 1 18408433 20 = .ok (dTwoSwept, 10, 1)
      ∧ dTwoSwept.beneficiaries[1]? = some ⟨6, 10, 0, 10000000000, 0, 1⟩ :=
  ⟨rfl,
    c4_sweep_frame.2 dTwo 1 18408433 20 dTwoSwept 10 1 1 ⟨6, 10, 0, 10000000000, 0, 1⟩
      rfl rfl (by decide) (by decide)⟩

/-- A swept beneficiary stays swept: re-running the per-beneficiary sweep
step on its output yields the same beneficiary and a zero amount. -/
theorem sweepBen_idem (b : Beneficiary) (now : Int) :
    sweepBen (sweepBen b now).1 now = ((sweepBen b now).1, 0) := by
  by_cases h1 : earliestWithdrawTime b < now
  · by_cases h2 : 0 < b.allocated_tokens - b.claimed_tokens
    · have hfst : (sweepBen b now).1 = { b with claimed_tokens := b.allocated_tokens } := by
        unfold sweepBen
        rw [if_pos h1, if_pos h2]

      rw [hfst]
      unfold sweepBen
      rw [show earliestWithdrawTime { b with claimed_tokens := b.allocated_tokens }
            = earliestWithdrawTime b from rfl]
      rw [if_pos h1]
      rw [if_neg (show ¬ 0 < b.allocated_tokens - b.allocated_tokens by omega)]
    · have hfst : (sweepBen b now).1 = b := by
        unfold sweepBen
        rw [if_pos h1, if_neg h2]
      rw [hfst]
      unfold sweepBen
      rw [if_pos h1, if_neg h2]
  · have hfst : (sweepBen b now).1 = b := by
      unfold sweepBen
      rw [if_neg h1]
    rw [hfst]
    unfold sweepBen
    rw [if_neg h1]

/-- Running the sweep loop on its own output sweeps nothing further. -/
theorem sweepLoop_idem (bs : List Beneficiary) (now : Int) (t p : Nat)
    (bs' : List Beneficiary) (T P : Nat)
    (h : sweepLoop bs now t p = some (bs', T, P)) :
    ∀ t0 p0, sweepLoop bs' now t0 p0 = some (bs', t0, p0) := by
  induction bs generalizing t p bs' T P with
  | nil =>
    simp only [sweepLoop, Option.some_inj] at h
    injection h with h1 h2
    subst h1
    intro t0 p0
    rfl
  | cons b0 rest ih =>
    simp only [sweepLoop] at h
    split at h
    · rename_i hpos
      split at h
      · cases h
      · split at h
        · cases h
        · split at h
          · cases h
          · rename_i bs0 T0 P0 hrec
            injection h with h1
            injection h1 with hlist hTP
            subst hlist
            intro t0 p0
            simp only [sweepLoop, sweepBen_idem]
            rw [if_neg (Nat.lt_irrefl 0)]
            rw [ih _ _ _ _ _ hrec t0 p0]
    · rename_i hneg
      split at h
      · cases h
      · rename_i bs0 T0 P0 hrec
        injection h with h1
        injection h1 with hlist hTP
        subst hlist
        intro t0 p0
        simp only [sweepLoop]
        rw [if_neg hneg]
        rw [ih _ _ _ _ _ hrec t0 p0]

/-- Inversion of a successful withdraw: the caller was the authority, the
committed beneficiary list is the sweep-loop output, and the authority is
unchanged. -/
theorem withdrawOp_ok_inv (d : DataAccount) (caller : Nat) (now : Int)
    (escrow : Nat) (d' : DataAccount) (t p : Nat)
    (h : withdrawOp d caller now escrow = .ok (d', t, p)) :
    d.authority = caller
      ∧ sweepLoop d.beneficiaries now 0 0 = some (d'.beneficiaries, t, p)
      ∧ d'.authority = d.authority := by
  unfold withdrawOp at h
  split at h
  · rename_i hauth
    split at h
    · cases h
    · rename_i bs0 T0 P0 hloop
      split at h
      · split at h
        · injection h with h1
          injection h1 with hd hTP
          injection hTP with hT hP
          refine ⟨hauth, ?_, ?_⟩
          · rw [← hd, ← hT, ← hP]
            exact hloop
          · rw [← hd]
        · cases h
      · cases h
  · cases h

/-- Claim C10: withdraw is idempotent at a fixed instant: after any
successful withdraw, repeating the operation at the same clock value with
the same caller fails with NoUnclaimedTokens, whatever the escrow balance,
and leaves every claimed value unchanged. -/
theorem c10_withdraw_idempotent (d : DataAccount) (caller : Nat) (now : Int)
    (escrow : Nat) (d' : DataAccount) (t p : Nat)
    (h : withdrawOp d caller now escrow = .ok (d', t, p)) :
    ∀ escrow2, withdrawOp d' caller now escrow2 = .error .NoUnclaimedTokens
      ∧ applyOp d' (.withdraw caller now escrow2) = d' := by
  obtain ⟨hauth, hloop, hauth'⟩ := withdrawOp_ok_inv d caller now escrow d' t p h
  intro escrow2
  have hloop2 : sweepLoop d'.beneficiaries now 0 0 = some (d'.beneficiaries, 0, 0) :=
    sweepLoop_idem d.beneficiaries now 0 0 d'.beneficiaries t p hloop 0 0
  have hop : withdrawOp d' caller now escrow2 = .error .NoUnclaimedTokens := by
    unfold withdrawOp
    rw [if_pos (hauth'.trans hauth), hloop2]
    exact rfl
  exact ⟨hop, by simp [applyOp, hop]⟩

/-- Witness for claim C10: a concrete successful sweep followed by an
immediate retry at the same instant. -/
theorem c10_witness :
    withdrawOp dTwo 1 18408433 20 = .ok (dTwoSwept, 10, 1)
      ∧ withdrawOp dTwoSwept 1 18408433 20 = .error .NoUnclaimedTokens :=
  ⟨rfl, (c10_withdraw_idempotent dTwo 1 18408433 20 dTwoSwept 10 1 rfl 20).1⟩

end Vesting
